import Mathlib

/-!
Verification development for the identifier-resolution and message-normalization
subsystem of a WhatsApp HTTP bridge (source: src/messageNormalizer.js).

The JavaScript module is shallowly embedded: the process-wide mutable state
(the two caches, the loaded flag, the watcher handle) becomes an explicit
`CacheState` value threaded through the functions; the `auth_info_baileys`
directory becomes an explicit `FSys` value (`none` when the directory does not
exist, otherwise a list of (filename, parsed JSON scalar) pairs where a `none`
content stands for a file whose JSON fails to parse); the Baileys socket
becomes `Sock`, holding the credential-embedded LID mapping table when present.
JS string operations are modelled character-exactly on `String.data`, and JS
`Map` objects by association lists whose lookup returns the most recent
insertion (the overwrite semantics of `Map.set`). Functions that can throw a
`TypeError` return `Except String`.
-/

/-- JS `String.prototype.startsWith`. -/
def jsStartsWith (s pat : String) : Bool :=
  pat.data.isPrefixOf s.data

/-- JS `String.prototype.endsWith`. -/
def jsEndsWith (s pat : String) : Bool :=
  pat.data.isSuffixOf s.data

/-- Substring occurrence test on character lists (JS `String.prototype.includes`). -/
def hasSubstr (l pat : List Char) : Bool :=
  match l with
  | [] => pat.isPrefixOf ([] : List Char)
  | _ :: cs => pat.isPrefixOf l || hasSubstr cs pat

/-- JS `String.prototype.includes`. -/
def jsIncludes (s pat : String) : Bool :=
  hasSubstr s.data pat.data

/-- Remove the first occurrence of `pat` from `l`
(JS `String.prototype.replace(pat, "")` with a string pattern). -/
def removeFirstL (l pat : List Char) : List Char :=
  match l with
  | [] => []
  | c :: cs =>
    if pat.isPrefixOf (c :: cs) then (c :: cs).drop pat.length
    else c :: removeFirstL cs pat

/-- JS `s.replace(pat, "")`: removes the first occurrence of `pat`, if any. -/
def jsRemoveFirst (s pat : String) : String :=
  ⟨removeFirstL s.data pat.data⟩

/-- JS `s.split(c)[0]`: the characters before the first occurrence of `c`. -/
def jsSplitHead (s : String) (c : Char) : String :=
  ⟨s.data.takeWhile (fun a => a != c)⟩

/-- The leading run of decimal digits of `s` (JS `s.match(/^(\d+)/)`). -/
def leadingDigits (s : String) : String :=
  ⟨s.data.takeWhile Char.isDigit⟩

/-- The emergency-fallback test `/^\d{10,15}$/.test(lid)`. -/
def isPhoneShaped (s : String) : Bool :=
  decide (10 ≤ s.data.length) && decide (s.data.length ≤ 15) && s.data.all Char.isDigit

/-- JS truthiness of an optional string (absent and `""` are falsy). -/
def truthy (o : Option String) : Bool :=
  match o with
  | some s => s != ""
  | none => false

/-- JS `x || null` on an optional string value. -/
def jsOrNull (o : Option String) : Option String :=
  if truthy o then o else none

/-- Lookup in a JS `Map` modelled as an association list (most recent insertion wins). -/
def mapGet (m : List (String × String)) (k : String) : Option String :=
  match m with
  | [] => none
  | (k₁, v) :: rest => if k₁ = k then some v else mapGet rest k

/-- JS `Map.prototype.set`: the new binding shadows any older one. -/
def mapSet (m : List (String × String)) (k v : String) : List (String × String) :=
  (k, v) :: m

/-- The module-global mutable state of messageNormalizer.js:
`lidToPhoneCache`, `phoneToLidCache`, `mappingsLoaded`, `fileWatcher`. -/
structure CacheState where
  lidToPhone : List (String × String)
  phoneToLid : List (String × String)
  mappingsLoaded : Bool
  fileWatcher : Bool
deriving DecidableEq

/-- The state at process start: both caches empty, nothing loaded, no watcher. -/
def initialCache : CacheState :=
  { lidToPhone := [], phoneToLid := [], mappingsLoaded := false, fileWatcher := false }

/-- The auth directory: a list of (filename, content) pairs. A `none` content is a
file whose JSON content fails to parse; `some v` is a file parsing to the scalar `v`. -/
abbrev FSDir := List (String × Option String)

/-- The file system seen by the module: `none` when `auth_info_baileys` does not exist. -/
abbrev FSys := Option FSDir

/-- The Baileys socket: `none` for a null socket or one without
`authState.creds.lid.mapping`; otherwise that mapping table. -/
abbrev Sock := Option (List (String × String))

/-- Result record of `validateMappings`. -/
structure ValidationResult where
  valid : Bool
  authDirExists : Bool
  mappingCount : Nat
  message : String
deriving DecidableEq

/-- `validateMappings()` from messageNormalizer.js. -/
def validateMappings (fs : FSys) : ValidationResult :=
  match fs with
  | none =>
    { valid := false, authDirExists := false, mappingCount := 0,
      message := "CRITICAL: Auth directory not found. LID resolution will fail!" }
  | some dir =>
    let mappingFiles := dir.filter
      (fun f => jsStartsWith f.1 "lid-mapping-" && !(jsIncludes f.1 "_reverse"))
    if mappingFiles.length = 0 then
      { valid := true, authDirExists := true, mappingCount := 0,
        message := "WARNING: No LID mapping files found. This is normal for new sessions." }
    else
      { valid := true, authDirExists := true, mappingCount := mappingFiles.length,
        message := "Found " ++ toString mappingFiles.length ++ " LID mapping file(s)" }

/-- `watchMappingFiles()`: installs the directory watcher once, if the directory exists. -/
def watchMappingFiles (fs : FSys) (st : CacheState) : CacheState :=
  if st.fileWatcher then st
  else
    match fs with
    | none => st
    | some _ => { st with fileWatcher := true }

/-- `lidToPhoneCache.set(lid, phone); phoneToLidCache.set(phone, lid)` — the
paired write-through insertion used by the load routine and strategies 2-4. -/
def insertBoth (st : CacheState) (lid phone : String) : CacheState :=
  { st with lidToPhone := mapSet st.lidToPhone lid phone,
            phoneToLid := mapSet st.phoneToLid phone lid }

/-- Processing of a single directory entry inside `loadAllLidMappings`. -/
def loadOne (st : CacheState) (f : String × Option String) : CacheState :=
  if jsStartsWith f.1 "lid-mapping-" && !(jsIncludes f.1 "_reverse") then
    match f.2 with
    | none => st
    | some lid =>
      if lid != "" && jsRemoveFirst (jsRemoveFirst f.1 "lid-mapping-") ".json" != "" then
        insertBoth st lid (jsRemoveFirst (jsRemoveFirst f.1 "lid-mapping-") ".json")
      else st
  else if jsIncludes f.1 "_reverse.json" then
    match f.2 with
    | none => st
    | some phoneNumber =>
      if jsRemoveFirst (jsRemoveFirst f.1 "lid-mapping-") "_reverse.json" != "" &&
          phoneNumber != "" then
        insertBoth st (jsRemoveFirst (jsRemoveFirst f.1 "lid-mapping-") "_reverse.json")
          phoneNumber
      else st
  else st

/-- `loadAllLidMappings()`: no-op once loaded; otherwise scans the directory,
inserts every well-formed forward and reverse entry into both caches, marks
loaded, and starts the watcher. The second component counts file-system
touches (existence checks, directory reads, file reads) performed. -/
def loadAllLidMappings (fs : FSys) (st : CacheState) : CacheState × Nat :=
  if st.mappingsLoaded then (st, 0)
  else
    match fs with
    | none => ({ st with mappingsLoaded := true }, 1)
    | some dir =>
      let st₁ := dir.foldl loadOne st
      (watchMappingFiles fs { st₁ with mappingsLoaded := true }, 2 + dir.length)

/-- The `fs.watch` callback installed by `watchMappingFiles`: on a notification
naming a `lid-mapping-` file it resets the loaded flag and reloads. -/
def watchCallback (filename : Option String) (fs : FSys) (st : CacheState) : CacheState :=
  match filename with
  | none => st
  | some f =>
    if f != "" && jsStartsWith f "lid-mapping-" then
      (loadAllLidMappings fs { st with mappingsLoaded := false }).1
    else st

/-- Strategy 4 of the resolver: scan the forward-mapping files for one whose
stored LID equals the target; the whole scan aborts on the first unreadable
forward file (the `try` in the source wraps the entire loop). Returns the
derived phone number and the number of file reads performed. -/
def scanForwardAux (dir : FSDir) (lid : String) : Option String × Nat :=
  match dir with
  | [] => (none, 0)
  | (name, content) :: rest =>
    if jsStartsWith name "lid-mapping-" && !(jsIncludes name "_reverse") then
      match content with
      | none => (none, 1)
      | some v =>
        if v = lid then
          (some (jsRemoveFirst (jsRemoveFirst name "lid-mapping-") ".json"), 1)
        else
          let r := scanForwardAux rest lid
          (r.1, r.2 + 1)
    else scanForwardAux rest lid

/-- Strategy 2 of the resolver: the live mapping table at
`sock.authState.creds.lid.mapping`, guarded by JS truthiness of the value. -/
def sockLidLookup (sock : Sock) (lid : String) : Option String :=
  match sock with
  | some m =>
    match mapGet m lid with
    | some p => if p != "" then some p else none
    | none => none
  | none => none

/-- Strategy 3 of the resolver: existence check plus read of the single
reverse-mapping file named for this LID. Second component counts file-system
touches; a `(none, 2)` outcome is a file that exists but fails to parse. -/
def readReverseFile (fs : FSys) (lid : String) : Option String × Nat :=
  match fs with
  | none => (none, 1)
  | some dir =>
    match dir.lookup ("lid-mapping-" ++ lid ++ "_reverse.json") with
    | none => (none, 1)
    | some none => (none, 2)
    | some (some p) => (some p, 2)

/-- Strategy 4 at the directory level: `readdirSync` throws when the directory
is missing (caught by the source and counted as one touch). -/
def scanForward (fs : FSys) (lid : String) : Option String × Nat :=
  match fs with
  | none => (none, 1)
  | some dir =>
    let r := scanForwardAux dir lid
    (r.1, r.2 + 1)

/-- `resolveLidToPhoneNumber(lid, sock)`: cache, socket credential table,
reverse-mapping file, forward scan, then the 10-15-digit heuristic fallback.
Returns the result, the updated state, and the number of file-system touches. -/
def resolveLidToPhoneNumber (lid : String) (sock : Sock) (fs : FSys) (st₀ : CacheState) :
    Option String × CacheState × Nat :=
  if lid = "" then (none, st₀, 0)
  else
    let load := loadAllLidMappings fs st₀
    let st := load.1
    match mapGet st.lidToPhone lid with
    | some p => (some p, st, load.2)
    | none =>
      match sockLidLookup sock lid with
      | some p => (some p, insertBoth st lid p, load.2)
      | none =>
        match (readReverseFile fs lid).1 with
        | some p => (some p, insertBoth st lid p, load.2 + (readReverseFile fs lid).2)
        | none =>
          match (scanForward fs lid).1 with
          | some phone =>
            (some phone, insertBoth st lid phone,
             load.2 + (readReverseFile fs lid).2 + (scanForward fs lid).2)
          | none =>
            if isPhoneShaped lid then
              (some lid, { st with lidToPhone := mapSet st.lidToPhone lid lid },
               load.2 + (readReverseFile fs lid).2 + (scanForward fs lid).2)
            else (none, st, load.2 + (readReverseFile fs lid).2 + (scanForward fs lid).2)

/-- `extractPhoneNumber(jid, sock)`: resolve `@lid` identifiers, strip the
direct suffix, take the part before the hyphen for groups, else leading digits. -/
def extractPhoneNumber (jid : Option String) (sock : Sock) (fs : FSys) (st : CacheState) :
    Option String × CacheState :=
  match jid with
  | none => (none, st)
  | some j =>
    if j = "" then (none, st)
    else if jsIncludes j "@lid" then
      let r := resolveLidToPhoneNumber (jsSplitHead j '@') sock fs st
      (r.1, r.2.1)
    else if jsEndsWith j "@s.whatsapp.net" then (some (jsRemoveFirst j "@s.whatsapp.net"), st)
    else if jsEndsWith j "@g.us" then (some (jsSplitHead (jsSplitHead j '@') '-'), st)
    else
      let d := leadingDigits j
      (if d = "" then none else some d, st)

/-- `extractLid(jid)`. -/
def extractLid (jid : Option String) : Option String :=
  match jid with
  | none => none
  | some j =>
    if j = "" then none
    else if jsIncludes j "@lid" then some (jsSplitHead j '@') else none

/-- `normalizeToWhatsAppJid(jid, sock)`: direct and group identifiers pass
through unchanged; anything else goes through phone-number extraction and is
rewrapped with the direct suffix. -/
def normalizeToWhatsAppJid (jid : Option String) (sock : Sock) (fs : FSys) (st : CacheState) :
    Option String × CacheState :=
  match jid with
  | none => (none, st)
  | some j =>
    if j = "" then (none, st)
    else if jsEndsWith j "@s.whatsapp.net" then (some j, st)
    else if jsEndsWith j "@g.us" then (some j, st)
    else if jsIncludes j "@lid" then
      let r := extractPhoneNumber (some j) sock fs st
      (r.1.map (fun pn => pn ++ "@s.whatsapp.net"), r.2)
    else
      let r := extractPhoneNumber (some j) sock fs st
      (r.1.map (fun pn => pn ++ "@s.whatsapp.net"), r.2)

/-- Reaction target key (`reactionMessage.key`). -/
structure RKey where
  id : Option String
deriving DecidableEq

/-- `reactionMessage` content block. -/
structure ReactionMessage where
  text : Option String
  key : Option RKey
deriving DecidableEq

/-- One option of a poll. -/
structure PollOption where
  optionName : Option String
deriving DecidableEq

/-- `pollCreationMessage` content block. -/
structure PollCreationMessage where
  name : Option String
  options : Option (List PollOption)
  selectableOptionsCount : Option Nat
deriving DecidableEq

/-- `contactMessage` content block. -/
structure ContactMessage where
  displayName : Option String
  vcard : Option String
deriving DecidableEq

/-- `contactsArrayMessage` content block. -/
structure ContactsArrayMessage where
  contacts : Option (List ContactMessage)
deriving DecidableEq

/-- `locationMessage` content block (coordinates kept opaque as integers;
they are only copied, never computed with). -/
structure LocationMessage where
  degreesLatitude : Option Int
  degreesLongitude : Option Int
  name : Option String
  address : Option String
deriving DecidableEq

/-- `imageMessage` content block. -/
structure ImageMessage where
  caption : Option String
  mimetype : Option String
  fileLength : Option Nat
  url : Option String
deriving DecidableEq

/-- `videoMessage` content block. -/
structure VideoMessage where
  caption : Option String
  mimetype : Option String
  fileLength : Option Nat
  seconds : Option Nat
  url : Option String
deriving DecidableEq

/-- `audioMessage` content block. -/
structure AudioMessage where
  ptt : Option Bool
  mimetype : Option String
  fileLength : Option Nat
  seconds : Option Nat
  url : Option String
deriving DecidableEq

/-- `documentMessage` content block. -/
structure DocumentMessage where
  fileName : Option String
  mimetype : Option String
  fileLength : Option Nat
  caption : Option String
  url : Option String
deriving DecidableEq

/-- `stickerMessage` content block. -/
structure StickerMessage where
  mimetype : Option String
  fileLength : Option Nat
  url : Option String
deriving DecidableEq

/-- An extended-text block inside a quoted message; only its `text` is ever read. -/
structure QExtendedText where
  text : Option String
deriving DecidableEq

/-- A quoted message, as consumed by `extractQuotedContent`. -/
structure QuotedMsg where
  conversation : Option String
  extendedTextMessage : Option QExtendedText
  imageMessage : Option ImageMessage
  videoMessage : Option VideoMessage
  audioMessage : Option AudioMessage
  documentMessage : Option DocumentMessage
  stickerMessage : Option StickerMessage
  locationMessage : Option LocationMessage
  contactMessage : Option ContactMessage
deriving DecidableEq

/-- `extendedTextMessage.contextInfo`. -/
structure ContextInfo where
  quotedMessage : Option QuotedMsg
  participant : Option String
  stanzaId : Option String
  mentionedJid : Option (List String)
deriving DecidableEq

/-- `extendedTextMessage` content block. -/
structure ExtendedTextMessage where
  text : Option String
  contextInfo : Option ContextInfo
deriving DecidableEq

/-- The raw content block `msg.message`. The typed fields hold the values of the
recognized keys; `objKeys` records the object's own keys in insertion order
(what `Object.keys` returns), used by the unsupported-type branch. -/
structure MessageContent where
  conversation : Option String
  extendedTextMessage : Option ExtendedTextMessage
  imageMessage : Option ImageMessage
  videoMessage : Option VideoMessage
  audioMessage : Option AudioMessage
  documentMessage : Option DocumentMessage
  stickerMessage : Option StickerMessage
  locationMessage : Option LocationMessage
  contactMessage : Option ContactMessage
  contactsArrayMessage : Option ContactsArrayMessage
  pollCreationMessage : Option PollCreationMessage
  reactionMessage : Option ReactionMessage
  objKeys : List String
deriving DecidableEq

/-- The empty object `{}` used for `rawMessage` when `msg.message` is absent. -/
def emptyMessageContent : MessageContent :=
  { conversation := none, extendedTextMessage := none, imageMessage := none,
    videoMessage := none, audioMessage := none, documentMessage := none,
    stickerMessage := none, locationMessage := none, contactMessage := none,
    contactsArrayMessage := none, pollCreationMessage := none, reactionMessage := none,
    objKeys := [] }

/-- `msg.key` of a raw Baileys message. -/
structure MsgKey where
  id : Option String
  remoteJid : Option String
  fromMe : Option Bool
  participant : Option String
deriving DecidableEq

/-- A raw Baileys message, as consumed by `normalizeMessage`. -/
structure RawMessage where
  key : MsgKey
  messageTimestamp : Option Nat
  message : Option MessageContent
deriving DecidableEq

/-- The quoted-message summary in a normalized message. -/
structure QuotedSummary where
  messageId : Option String
  participant : Option String
  participantLid : Option String
  participantJid : Option String
  content : Option String
deriving DecidableEq

/-- The location payload in a normalized message. -/
structure LocationData where
  latitude : Option Int
  longitude : Option Int
  name : Option String
  address : Option String
deriving DecidableEq

/-- One contact entry in a normalized message. -/
structure ContactData where
  displayName : Option String
  vcard : Option String
deriving DecidableEq

/-- The poll payload in a normalized message. -/
structure PollData where
  name : Option String
  options : List (Option String)
  selectableCount : Option Nat
deriving DecidableEq

/-- The reaction payload in a normalized message. -/
structure ReactionData where
  emoji : Option String
  targetMessageId : Option String
deriving DecidableEq

/-- The normalized message record built by `normalizeMessage`. -/
structure NormalizedMessage where
  messageId : Option String
  timestamp : Nat
  «from» : Option String
  fromLid : Option String
  fromJid : Option String
  fromJidRaw : Option String
  fromMe : Bool
  participant : Option String
  participantLid : Option String
  participantJid : Option String
  participantJidRaw : Option String
  isGroup : Bool
  messageType : Option String
  content : Option String
  caption : Option String
  quotedMessage : Option QuotedSummary
  mentions : List String
  mentionLids : List String
  hasMedia : Bool
  mediaUrl : Option String
  mimeType : Option String
  fileName : Option String
  fileSize : Option Nat
  duration : Option Nat
  location : Option LocationData
  contacts : Option (List ContactData)
  pollData : Option PollData
  reactionData : Option ReactionData
  rawMessage : MessageContent
deriving DecidableEq

/-- `extractQuotedContent(quotedMsg)`: one-line digest of a quoted message. -/
def extractQuotedContent (qm : QuotedMsg) : Option String :=
  if truthy qm.conversation then qm.conversation
  else
    match qm.extendedTextMessage with
    | some e => e.text
    | none =>
      match qm.imageMessage with
      | some im => if truthy im.caption then im.caption else some "[Image]"
      | none =>
        match qm.videoMessage with
        | some vm => if truthy vm.caption then vm.caption else some "[Video]"
        | none =>
          match qm.audioMessage with
          | some _ => some "[Audio]"
          | none =>
            match qm.documentMessage with
            | some dm => if truthy dm.fileName then dm.fileName else some "[Document]"
            | none =>
              match qm.stickerMessage with
              | some _ => some "[Sticker]"
              | none =>
                match qm.locationMessage with
                | some _ => some "[Location]"
                | none =>
                  match qm.contactMessage with
                  | some _ => some "[Contact]"
                  | none => some "[Unknown]"

/-- Resolution of a list of mentioned JIDs, threading the cache left to right
(the `mentionedJids.map(jid => extractPhoneNumber(jid, sock))` call). -/
def mkMentions (jids : List String) (sock : Sock) (fs : FSys) (st : CacheState) :
    List (Option String) × CacheState :=
  match jids with
  | [] => ([], st)
  | j :: rest =>
    let r := extractPhoneNumber (some j) sock fs st
    let t := mkMentions rest sock fs r.2
    (r.1 :: t.1, t.2)

/-- `normalizeMessage(msg, sock)`: builds the normalized record, then dispatches
on the first recognized content key. The throwing accesses of the source
(`msg.key.remoteJid.endsWith`, `pollCreationMessage.options.map`,
`contactsArrayMessage.contacts.map`, `reactionMessage.key.id`) surface as
`Except.error`. `now` is the clock value `Date.now()` would return. -/
def normalizeMessage (msg : RawMessage) (sock : Sock) (fs : FSys) (st₀ : CacheState)
    (now : Nat) : Except String (NormalizedMessage × CacheState) :=
  match msg.key.remoteJid with
  | none => Except.error "TypeError: cannot read endsWith of undefined remoteJid"
  | some rj =>
    let r₁ := extractPhoneNumber (some rj) sock fs st₀
    let r₂ := normalizeToWhatsAppJid (some rj) sock fs r₁.2
    let r₃ :=
      if truthy msg.key.participant then extractPhoneNumber msg.key.participant sock fs r₂.2
      else (none, r₂.2)
    let r₄ :=
      if truthy msg.key.participant then normalizeToWhatsAppJid msg.key.participant sock fs r₃.2
      else (none, r₃.2)
    let st₄ := r₄.2
    let base : NormalizedMessage :=
      { messageId := msg.key.id,
        timestamp :=
          match msg.messageTimestamp with
          | some t => if t = 0 then now else t * 1000
          | none => now,
        «from» := r₁.1,
        fromLid := extractLid (some rj),
        fromJid := r₂.1,
        fromJidRaw := some rj,
        fromMe := msg.key.fromMe.getD false,
        participant := r₃.1,
        participantLid :=
          if truthy msg.key.participant then extractLid msg.key.participant else none,
        participantJid := r₄.1,
        participantJidRaw := jsOrNull msg.key.participant,
        isGroup := jsEndsWith rj "@g.us",
        messageType := none,
        content := none,
        caption := none,
        quotedMessage := none,
        mentions := [],
        mentionLids := [],
        hasMedia := false,
        mediaUrl := none,
        mimeType := none,
        fileName := none,
        fileSize := none,
        duration := none,
        location := none,
        contacts := none,
        pollData := none,
        reactionData := none,
        rawMessage := msg.message.getD emptyMessageContent }
    match msg.message with
    | none => Except.ok ({ base with messageType := some "unknown" }, st₄)
    | some mc =>
      if truthy mc.conversation then
        Except.ok ({ base with
                     messageType := some "text",
                     content := mc.conversation }, st₄)
      else
        match mc.extendedTextMessage with
        | some ext =>
          let q : Option QuotedSummary × CacheState :=
            match ext.contextInfo with
            | some ci =>
              match ci.quotedMessage with
              | some qm =>
                let rq := extractPhoneNumber ci.participant sock fs st₄
                (some { messageId := ci.stanzaId,
                        participant := rq.1,
                        participantLid := extractLid ci.participant,
                        participantJid := ci.participant,
                        content := extractQuotedContent qm }, rq.2)
              | none => (none, st₄)
            | none => (none, st₄)
          let men : List String × List String × CacheState :=
            match ext.contextInfo with
            | some ci =>
              match ci.mentionedJid with
              | some jids =>
                let rm := mkMentions jids sock fs q.2
                (rm.1.filterMap id,
                 (jids.map (fun j => extractLid (some j))).filterMap id, rm.2)
              | none => ([], [], q.2)
            | none => ([], [], q.2)
          Except.ok ({ base with
                       messageType := some "text",
                       content := ext.text,
                       quotedMessage := q.1,
                       mentions := men.1,
                       mentionLids := men.2.1 }, men.2.2)
        | none =>
          match mc.imageMessage with
          | some im =>
            Except.ok ({ base with
                         messageType := some "image",
                         hasMedia := true,
                         caption := jsOrNull im.caption,
                         mimeType := im.mimetype,
                         fileSize := im.fileLength,
                         mediaUrl := jsOrNull im.url }, st₄)
          | none =>
            match mc.videoMessage with
            | some vm =>
              Except.ok ({ base with
                           messageType := some "video",
                           hasMedia := true,
                           caption := jsOrNull vm.caption,
                           mimeType := vm.mimetype,
                           fileSize := vm.fileLength,
                           duration := vm.seconds,
                           mediaUrl := jsOrNull vm.url }, st₄)
            | none =>
              match mc.audioMessage with
              | some am =>
                Except.ok ({ base with
                             messageType :=
                               some (if am.ptt = some true then "voice" else "audio"),
                             hasMedia := true,
                             mimeType := am.mimetype,
                             fileSize := am.fileLength,
                             duration := am.seconds,
                             mediaUrl := jsOrNull am.url }, st₄)
              | none =>
                match mc.documentMessage with
                | some dm =>
                  Except.ok ({ base with
                               messageType := some "document",
                               hasMedia := true,
                               fileName := dm.fileName,
                               mimeType := dm.mimetype,
                               fileSize := dm.fileLength,
                               caption := jsOrNull dm.caption,
                               mediaUrl := jsOrNull dm.url }, st₄)
                | none =>
                  match mc.stickerMessage with
                  | some sm =>
                    Except.ok ({ base with
                                 messageType := some "sticker",
                                 hasMedia := true,
                                 mimeType := sm.mimetype,
                                 fileSize := sm.fileLength,
                                 mediaUrl := jsOrNull sm.url }, st₄)
                  | none =>
                    match mc.locationMessage with
                    | some lm =>
                      Except.ok ({ base with
                                   messageType := some "location",
                                   location := some {
                                     latitude := lm.degreesLatitude,
                                     longitude := lm.degreesLongitude,
                                     name := jsOrNull lm.name,
                                     address := jsOrNull lm.address } }, st₄)
                    | none =>
                      match mc.contactMessage with
                      | some cm =>
                        Except.ok ({ base with
                                     messageType := some "contact",
                                     contacts := some [{ displayName := cm.displayName,
                                                         vcard := cm.vcard }] }, st₄)
                      | none =>
                        match mc.contactsArrayMessage with
                        | some cam =>
                          match cam.contacts with
                          | none =>
                            Except.error "TypeError: cannot read map of undefined contacts"
                          | some cs =>
                            Except.ok ({ base with
                                         messageType := some "contacts",
                                         contacts := some (cs.map (fun c =>
                                           { displayName := c.displayName,
                                             vcard := c.vcard })) }, st₄)
                        | none =>
                          match mc.pollCreationMessage with
                          | some pm =>
                            match pm.options with
                            | none =>
                              Except.error "TypeError: cannot read map of undefined options"
                            | some opts =>
                              Except.ok ({ base with
                                           messageType := some "poll",
                                           pollData := some {
                                             name := pm.name,
                                             options := opts.map (fun o => o.optionName),
                                             selectableCount :=
                                               pm.selectableOptionsCount } }, st₄)
                          | none =>
                            match mc.reactionMessage with
                            | some rm =>
                              match rm.key with
                              | none =>
                                Except.error "TypeError: cannot read id of undefined key"
                              | some k =>
                                Except.ok ({ base with
                                             messageType := some "reaction",
                                             reactionData := some {
                                               emoji := rm.text,
                                               targetMessageId := k.id } }, st₄)
                            | none =>
                              Except.ok ({ base with
                                           messageType := some "unsupported",
                                           content := mc.objKeys.head? }, st₄)

/-- Whether an embedded computation returned normally (did not throw). -/
def exceptOk (e : Except String (NormalizedMessage × CacheState)) : Bool :=
  match e with
  | Except.ok _ => true
  | Except.error _ => false

theorem mapGet_mapSet_self (m : List (String × String)) (k v : String) :
    mapGet (mapSet m k v) k = some v := by
  simp [mapGet, mapSet]

theorem mapGet_mapSet_ne (m : List (String × String)) (k v k₁ : String) (h : k ≠ k₁) :
    mapGet (mapSet m k v) k₁ = mapGet m k₁ := by
  simp [mapGet, mapSet, h]

theorem insertBoth_lidToPhone (st : CacheState) (l p : String) :
    (insertBoth st l p).lidToPhone = mapSet st.lidToPhone l p := rfl

theorem insertBoth_phoneToLid (st : CacheState) (l p : String) :
    (insertBoth st l p).phoneToLid = mapSet st.phoneToLid p l := rfl

theorem insertBoth_loaded (st : CacheState) (l p : String) :
    (insertBoth st l p).mappingsLoaded = st.mappingsLoaded := rfl

theorem watchMappingFiles_loaded (fs : FSys) (st : CacheState) :
    (watchMappingFiles fs st).mappingsLoaded = st.mappingsLoaded := by
  unfold watchMappingFiles
  split
  · rfl
  · cases fs <;> rfl

theorem watchMappingFiles_lidToPhone (fs : FSys) (st : CacheState) :
    (watchMappingFiles fs st).lidToPhone = st.lidToPhone := by
  unfold watchMappingFiles
  split
  · rfl
  · cases fs <;> rfl

theorem watchMappingFiles_phoneToLid (fs : FSys) (st : CacheState) :
    (watchMappingFiles fs st).phoneToLid = st.phoneToLid := by
  unfold watchMappingFiles
  split
  · rfl
  · cases fs <;> rfl

theorem loadAll_loaded (fs : FSys) (st : CacheState) :
    ((loadAllLidMappings fs st).1).mappingsLoaded = true := by
  unfold loadAllLidMappings
  split
  · next h => simpa using h
  · cases fs
    · rfl
    · next dir => simp [watchMappingFiles_loaded]

theorem loadAll_of_loaded (fs : FSys) (st : CacheState) (h : st.mappingsLoaded = true) :
    loadAllLidMappings fs st = (st, 0) := by
  unfold loadAllLidMappings
  simp [h]

theorem resolve_some_cached (lid : String) (sock : Sock) (fs : FSys) (st₀ st₁ : CacheState)
    (p : String) (n : Nat)
    (h : resolveLidToPhoneNumber lid sock fs st₀ = (some p, st₁, n)) :
    lid ≠ "" ∧ mapGet st₁.lidToPhone lid = some p ∧ st₁.mappingsLoaded = true := by
  by_cases hl : lid = ""
  · simp [resolveLidToPhoneNumber, hl] at h
  · refine ⟨hl, ?_⟩
    simp only [resolveLidToPhoneNumber, if_neg hl] at h
    split at h
    · simp only [Prod.mk.injEq, Option.some.injEq] at h
      obtain ⟨hp, hst, -⟩ := h
      subst hst
      next heq =>
        exact ⟨hp ▸ heq, loadAll_loaded fs st₀⟩
    · split at h
      · simp only [Prod.mk.injEq, Option.some.injEq] at h
        obtain ⟨hp, hst, -⟩ := h
        subst hst hp
        exact ⟨mapGet_mapSet_self _ _ _, loadAll_loaded fs st₀⟩
      · split at h
        · simp only [Prod.mk.injEq, Option.some.injEq] at h
          obtain ⟨hp, hst, -⟩ := h
          subst hst hp
          exact ⟨mapGet_mapSet_self _ _ _, loadAll_loaded fs st₀⟩
        · split at h
          · simp only [Prod.mk.injEq, Option.some.injEq] at h
            obtain ⟨hp, hst, -⟩ := h
            subst hst hp
            exact ⟨mapGet_mapSet_self _ _ _, loadAll_loaded fs st₀⟩
          · split at h
            · simp only [Prod.mk.injEq, Option.some.injEq] at h
              obtain ⟨hp, hst, -⟩ := h
              subst hst
              exact ⟨hp ▸ mapGet_mapSet_self _ _ _, loadAll_loaded fs st₀⟩
            · simp at h

/-- C6 (amended): when a `resolveLidToPhoneNumber` call returns a non-null
phone number, a second call with the same lid, socket and directory returns the
identical result, leaves the state unchanged, and performs zero file-system
touches — the result is served from the cache populated by the first call. -/
theorem resolve_idempotent_of_some (lid : String) (sock : Sock) (fs : FSys)
    (st₀ st₁ : CacheState) (p : String) (n : Nat)
    (h : resolveLidToPhoneNumber lid sock fs st₀ = (some p, st₁, n)) :
    resolveLidToPhoneNumber lid sock fs st₁ = (some p, st₁, 0) := by
  obtain ⟨hl, hc, hloaded⟩ := resolve_some_cached lid sock fs st₀ st₁ p n h
  simp only [resolveLidToPhoneNumber, if_neg hl, loadAll_of_loaded fs st₁ hloaded, hc]

/-- Witness for the amended C6 theorem at a concrete heuristic-resolved lid. -/
theorem resolve_idempotent_of_some_witness :
    resolveLidToPhoneNumber "12345678901" none none
      { lidToPhone := [("12345678901", "12345678901")], phoneToLid := [],
        mappingsLoaded := true, fileWatcher := false } =
    (some "12345678901",
     { lidToPhone := [("12345678901", "12345678901")], phoneToLid := [],
       mappingsLoaded := true, fileWatcher := false }, 0) :=
  resolve_idempotent_of_some "12345678901" none none initialCache
    { lidToPhone := [("12345678901", "12345678901")], phoneToLid := [],
      mappingsLoaded := true, fileWatcher := false } "12345678901" 3 (by decide)

/-- C6 counterexample: for the unresolvable lid "abc" over an existing empty
directory, the first call returns null and caches nothing, so the second call
performs further file-system touches — the claim's "no additional file-system
scans" fails for lids whose resolution is exhausted. -/
theorem resolve_second_call_rescans :
    (resolveLidToPhoneNumber "abc" none (some [])
      (resolveLidToPhoneNumber "abc" none (some []) initialCache).2.1).2.2 ≠ 0 := by
  decide

theorem loadOne_shape (st : CacheState) (f : String × Option String) :
    loadOne st f = st ∨ ∃ l p, loadOne st f = insertBoth st l p := by
  unfold loadOne
  split
  · split
    · left; rfl
    · split
      · right; exact ⟨_, _, rfl⟩
      · left; rfl
  · split
    · split
      · left; rfl
      · split
        · right; exact ⟨_, _, rfl⟩
        · left; rfl
    · left; rfl

theorem resolve_mutation_shape (lid : String) (sock : Sock) (fs : FSys) (st₀ : CacheState) :
    (resolveLidToPhoneNumber lid sock fs st₀).2.1 = st₀ ∨
    (resolveLidToPhoneNumber lid sock fs st₀).2.1 = (loadAllLidMappings fs st₀).1 ∨
    (∃ p, (resolveLidToPhoneNumber lid sock fs st₀).1 = some p ∧
      (resolveLidToPhoneNumber lid sock fs st₀).2.1 =
        insertBoth (loadAllLidMappings fs st₀).1 lid p) ∨
    ((resolveLidToPhoneNumber lid sock fs st₀).1 = some lid ∧ isPhoneShaped lid = true ∧
      (resolveLidToPhoneNumber lid sock fs st₀).2.1 =
        { (loadAllLidMappings fs st₀).1 with
          lidToPhone := mapSet (loadAllLidMappings fs st₀).1.lidToPhone lid lid }) := by
  by_cases hl : lid = ""
  · left; simp [resolveLidToPhoneNumber, hl]
  · simp only [resolveLidToPhoneNumber, if_neg hl]
    split
    · right; left; rfl
    · split
      · right; right; left; exact ⟨_, rfl, rfl⟩
      · split
        · right; right; left; exact ⟨_, rfl, rfl⟩
        · split
          · right; right; left; exact ⟨_, rfl, rfl⟩
          · split
            · next hshape => right; right; right; exact ⟨rfl, hshape, rfl⟩
            · right; left; rfl

/-- C2 (amended): every cache mutation performed by a load step or by
resolution strategies 2-4 inserts the fact into both directions together
(`insertBoth`); the single exception is the heuristic 10-15-digit fallback,
which records the fact in `lidToPhoneCache` only, leaving `phoneToLidCache`
untouched. -/
theorem cache_write_pairing :
    (∀ st f, loadOne st f = st ∨ ∃ l p, loadOne st f = insertBoth st l p) ∧
    (∀ lid sock fs st₀,
      (resolveLidToPhoneNumber lid sock fs st₀).2.1 = st₀ ∨
      (resolveLidToPhoneNumber lid sock fs st₀).2.1 = (loadAllLidMappings fs st₀).1 ∨
      (∃ p, (resolveLidToPhoneNumber lid sock fs st₀).1 = some p ∧
        (resolveLidToPhoneNumber lid sock fs st₀).2.1 =
          insertBoth (loadAllLidMappings fs st₀).1 lid p) ∨
      ((resolveLidToPhoneNumber lid sock fs st₀).1 = some lid ∧ isPhoneShaped lid = true ∧
        (resolveLidToPhoneNumber lid sock fs st₀).2.1 =
          { (loadAllLidMappings fs st₀).1 with
            lidToPhone :=
              mapSet (loadAllLidMappings fs st₀).1.lidToPhone lid lid })) :=
  ⟨loadOne_shape, resolve_mutation_shape⟩

/-- C2 counterexample: resolving the 11-digit lid "12345678901" through the
heuristic fallback records the fact in the LID-to-phone direction only; the
paired phone-to-LID entry is absent from the resulting state. -/
theorem heuristic_one_sided_insert :
    mapGet (resolveLidToPhoneNumber "12345678901" none none initialCache).2.1.lidToPhone
      "12345678901" = some "12345678901" ∧
    mapGet (resolveLidToPhoneNumber "12345678901" none none initialCache).2.1.phoneToLid
      "12345678901" = none := by
  decide

theorem loadOne_lidToPhone_isSome (st : CacheState) (f : String × Option String)
    (k : String) (h : (mapGet st.lidToPhone k).isSome = true) :
    (mapGet (loadOne st f).lidToPhone k).isSome = true := by
  rcases loadOne_shape st f with h₁ | ⟨l, p, h₁⟩ <;> rw [h₁]
  · exact h
  · by_cases hk : l = k
    · subst hk; simp [insertBoth, mapGet_mapSet_self]
    · rw [insertBoth_lidToPhone, mapGet_mapSet_ne _ _ _ _ hk]; exact h

theorem loadOne_phoneToLid_isSome (st : CacheState) (f : String × Option String)
    (k : String) (h : (mapGet st.phoneToLid k).isSome = true) :
    (mapGet (loadOne st f).phoneToLid k).isSome = true := by
  rcases loadOne_shape st f with h₁ | ⟨l, p, h₁⟩ <;> rw [h₁]
  · exact h
  · by_cases hk : p = k
    · subst hk; simp [insertBoth, mapGet_mapSet_self]
    · rw [insertBoth_phoneToLid, mapGet_mapSet_ne _ _ _ _ hk]; exact h

theorem foldl_loadOne_lidToPhone_isSome (dir : FSDir) (st : CacheState) (k : String)
    (h : (mapGet st.lidToPhone k).isSome = true) :
    (mapGet (dir.foldl loadOne st).lidToPhone k).isSome = true := by
  induction dir generalizing st with
  | nil => exact h
  | cons f rest ih => exact ih _ (loadOne_lidToPhone_isSome st f k h)

theorem foldl_loadOne_phoneToLid_isSome (dir : FSDir) (st : CacheState) (k : String)
    (h : (mapGet st.phoneToLid k).isSome = true) :
    (mapGet (dir.foldl loadOne st).phoneToLid k).isSome = true := by
  induction dir generalizing st with
  | nil => exact h
  | cons f rest ih => exact ih _ (loadOne_phoneToLid_isSome st f k h)

theorem loadAll_lidToPhone_isSome (fs : FSys) (st : CacheState) (k : String)
    (h : (mapGet st.lidToPhone k).isSome = true) :
    (mapGet (loadAllLidMappings fs st).1.lidToPhone k).isSome = true := by
  unfold loadAllLidMappings
  split
  · exact h
  · cases fs
    · exact h
    · next dir =>
        simpa [watchMappingFiles_lidToPhone] using foldl_loadOne_lidToPhone_isSome dir st k h

theorem loadAll_phoneToLid_isSome (fs : FSys) (st : CacheState) (k : String)
    (h : (mapGet st.phoneToLid k).isSome = true) :
    (mapGet (loadAllLidMappings fs st).1.phoneToLid k).isSome = true := by
  unfold loadAllLidMappings
  split
  · exact h
  · cases fs
    · exact h
    · next dir =>
        simpa [watchMappingFiles_phoneToLid] using foldl_loadOne_phoneToLid_isSome dir st k h

/-- C4 (amended): on a file-change notification naming a `lid-mapping-` file,
the callback resets the loaded flag and immediately reloads: afterwards the
loaded flag is back to `true`, and the reload merges directory entries into
the existing mappings — every key present before the notification is still
present after it; neither mapping is cleared. -/
theorem watchCallback_reloads_without_clearing (st : CacheState) (fs : FSys) (f : String)
    (hne : f ≠ "") (hfwd : jsStartsWith f "lid-mapping-" = true) :
    (watchCallback (some f) fs st).mappingsLoaded = true ∧
    (∀ l, (mapGet st.lidToPhone l).isSome = true →
      (mapGet (watchCallback (some f) fs st).lidToPhone l).isSome = true) ∧
    (∀ p, (mapGet st.phoneToLid p).isSome = true →
      (mapGet (watchCallback (some f) fs st).phoneToLid p).isSome = true) := by
  have hcond : (f != "" && jsStartsWith f "lid-mapping-") = true := by
    simp [hne, hfwd]
  simp only [watchCallback, hcond, if_true]
  refine ⟨loadAll_loaded _ _, fun l h => ?_, fun p h => ?_⟩
  · exact loadAll_lidToPhone_isSome fs { st with mappingsLoaded := false } l h
  · exact loadAll_phoneToLid_isSome fs { st with mappingsLoaded := false } p h

/-- Witness for the amended C4 theorem at a concrete stale state. -/
theorem watchCallback_reloads_witness :
    (watchCallback (some "lid-mapping-x.json") (some [])
      { lidToPhone := [("A", "P")], phoneToLid := [("P", "A")],
        mappingsLoaded := true, fileWatcher := true }).mappingsLoaded = true ∧
    (mapGet (watchCallback (some "lid-mapping-x.json") (some [])
      { lidToPhone := [("A", "P")], phoneToLid := [("P", "A")],
        mappingsLoaded := true, fileWatcher := true }).lidToPhone "A").isSome = true := by
  have h := watchCallback_reloads_without_clearing
    { lidToPhone := [("A", "P")], phoneToLid := [("P", "A")],
      mappingsLoaded := true, fileWatcher := true }
    (some []) "lid-mapping-x.json" (by decide) (by decide)
  exact ⟨h.1, h.2.1 "A" (by decide)⟩

/-- C4 counterexample: a notification naming the forward-mapping file
"lid-mapping-1.json" over an (empty) existing directory leaves a stale entry in
both mappings — the callback does not clear them, contrary to the claim. -/
theorem watchCallback_keeps_stale_entries :
    (watchCallback (some "lid-mapping-1.json") (some [])
      { lidToPhone := [("A", "P")], phoneToLid := [("P", "A")],
        mappingsLoaded := true, fileWatcher := true }).lidToPhone = [("A", "P")] ∧
    (watchCallback (some "lid-mapping-1.json") (some [])
      { lidToPhone := [("A", "P")], phoneToLid := [("P", "A")],
        mappingsLoaded := true, fileWatcher := true }).phoneToLid = [("P", "A")] := by
  decide

theorem isPhoneShaped_ne_empty (s : String) (h : isPhoneShaped s = true) : s ≠ "" := by
  intro he
  subst he
  simp [isPhoneShaped] at h

theorem isPhoneShaped_false_of_nondigit (s : String) (c : Char) (hc : c ∈ s.data)
    (hd : c.isDigit = false) : isPhoneShaped s = false := by
  unfold isPhoneShaped
  have hall : s.data.all Char.isDigit = false := by
    rw [Bool.eq_false_iff]
    intro hall
    rw [List.all_eq_true] at hall
    have h₁ := hall c hc
    rw [hd] at h₁
    exact Bool.false_ne_true h₁
  simp [hall]

theorem loadAll_none_lidToPhone (st : CacheState) :
    (loadAllLidMappings none st).1.lidToPhone = st.lidToPhone := by
  unfold loadAllLidMappings
  split <;> rfl

theorem resolve_no_dir_result (lid : String) (st : CacheState)
    (hl : lid ≠ "") (hc : mapGet st.lidToPhone lid = none) :
    (resolveLidToPhoneNumber lid none none st).1 =
      if isPhoneShaped lid then some lid else none := by
  have hc₁ : mapGet (loadAllLidMappings none st).1.lidToPhone lid = none := by
    rw [loadAll_none_lidToPhone]; exact hc
  simp only [resolveLidToPhoneNumber, if_neg hl, hc₁, sockLidLookup, readReverseFile,
    scanForward]
  split <;> rfl

/-- C5: with no backing directory, `validateMappings` reports
`authDirExists = false`; from the fresh state with a null socket, resolving a
10-15-digit lid returns that same lid through the heuristic fallback, and
resolving a lid containing a non-digit character returns null. -/
theorem no_dir_validate_and_resolve :
    (validateMappings none).authDirExists = false ∧
    (∀ lid, isPhoneShaped lid = true →
      (resolveLidToPhoneNumber lid none none initialCache).1 = some lid) ∧
    (∀ lid c, c ∈ lid.data → c.isDigit = false →
      (resolveLidToPhoneNumber lid none none initialCache).1 = none) := by
  refine ⟨rfl, fun lid h => ?_, fun lid c hc hd => ?_⟩
  · rw [resolve_no_dir_result lid initialCache (isPhoneShaped_ne_empty lid h) rfl]
    simp [h]
  · by_cases hl : lid = ""
    · subst hl
      simp at hc
    · rw [resolve_no_dir_result lid initialCache hl rfl]
      simp [isPhoneShaped_false_of_nondigit lid c hc hd]

/-- Witness for C5 at the lids "12345678901" (numeric) and "abc" (non-numeric). -/
theorem no_dir_validate_and_resolve_witness :
    (resolveLidToPhoneNumber "12345678901" none none initialCache).1 =
      some "12345678901" ∧
    (resolveLidToPhoneNumber "abc" none none initialCache).1 = none :=
  ⟨no_dir_validate_and_resolve.2.1 "12345678901" (by decide),
   no_dir_validate_and_resolve.2.2 "abc" 'a' (by decide) (by decide)⟩

theorem isPrefixOf_append_self : ∀ (l r : List Char), l.isPrefixOf (l ++ r) = true
  | [], _ => by simp [List.isPrefixOf]
  | c :: cs, r => by simp [List.isPrefixOf, isPrefixOf_append_self cs r]

theorem removeFirstL_append (pat rest : List Char) (h : pat ≠ []) :
    removeFirstL (pat ++ rest) pat = rest := by
  cases pat with
  | nil => exact absurd rfl h
  | cons c cs =>
    rw [List.cons_append]
    simp only [removeFirstL]
    rw [if_pos]
    · rw [← List.cons_append]
      exact List.drop_left (c :: cs) rest
    · rw [← List.cons_append]
      exact isPrefixOf_append_self (c :: cs) rest

theorem removeFirstL_append_of_notMem (l pat rest : List Char) (c₀ : Char) (cs₀ : List Char)
    (hp : pat = c₀ :: cs₀) (hn : c₀ ∉ l) :
    removeFirstL (l ++ pat ++ rest) pat = l ++ rest := by
  induction l with
  | nil =>
    simpa using removeFirstL_append pat rest (by simp [hp])
  | cons a l ih =>
    have hna : c₀ ≠ a := fun he => hn (he ▸ List.mem_cons_self a l)
    have hnl : c₀ ∉ l := fun hm => hn (List.mem_cons_of_mem a hm)
    rw [List.cons_append, List.cons_append]
    simp only [removeFirstL]
    rw [if_neg]
    · rw [ih hnl, List.cons_append]
    · rw [hp]
      intro hpre
      simp only [List.isPrefixOf, Bool.and_eq_true, beq_iff_eq] at hpre
      exact hna hpre.1

theorem hasSubstr_eq_false (l : List Char) (c₀ : Char) (cs₀ : List Char) (hn : c₀ ∉ l) :
    hasSubstr l (c₀ :: cs₀) = false := by
  induction l with
  | nil => rfl
  | cons a l ih =>
    have hna : c₀ ≠ a := fun he => hn (he ▸ List.mem_cons_self a l)
    have hnl : c₀ ∉ l := fun hm => hn (List.mem_cons_of_mem a hm)
    simp only [hasSubstr]
    rw [ih hnl]
    rw [Bool.or_false, Bool.eq_false_iff]
    intro hpre
    simp only [List.isPrefixOf, Bool.and_eq_true, beq_iff_eq] at hpre
    exact hna hpre.1

theorem forward_name_starts (p : String) :
    jsStartsWith ("lid-mapping-" ++ p ++ ".json") "lid-mapping-" = true := by
  unfold jsStartsWith
  rw [String.data_append, String.data_append, List.append_assoc]
  exact isPrefixOf_append_self _ _

theorem forward_name_no_reverse (p : String) (hdig : ∀ c ∈ p.data, c.isDigit = true) :
    jsIncludes ("lid-mapping-" ++ p ++ ".json") "_reverse" = false := by
  unfold jsIncludes
  have hpat : "_reverse".data = '_' :: "reverse".data := by decide
  rw [hpat, String.data_append, String.data_append]
  apply hasSubstr_eq_false
  intro hmem
  rcases List.mem_append.mp hmem with h₁ | h₂
  · rcases List.mem_append.mp h₁ with h₃ | h₄
    · exact absurd h₃ (by decide)
    · exact absurd (hdig _ h₄) (by decide)
  · exact absurd h₂ (by decide)

theorem forward_name_parses (p : String) (hdig : ∀ c ∈ p.data, c.isDigit = true) :
    jsRemoveFirst (jsRemoveFirst ("lid-mapping-" ++ p ++ ".json") "lid-mapping-") ".json"
      = p := by
  have h₁ : jsRemoveFirst ("lid-mapping-" ++ p ++ ".json") "lid-mapping-" = p ++ ".json" := by
    apply String.ext
    show removeFirstL ("lid-mapping-" ++ p ++ ".json").data "lid-mapping-".data
        = (p ++ ".json").data
    rw [String.data_append, String.data_append, String.data_append, List.append_assoc]
    exact removeFirstL_append _ _ (by decide)
  rw [h₁]
  apply String.ext
  show removeFirstL (p ++ ".json").data ".json".data = p.data
  rw [String.data_append]
  have hdot : ('.' : Char) ∉ p.data := fun hm => absurd (hdig _ hm) (by decide)
  have h₂ := removeFirstL_append_of_notMem p.data ".json".data [] '.' "json".data
    (by decide) hdot
  simpa using h₂

theorem loadOne_forward (st : CacheState) (p l : String)
    (hdig : ∀ c ∈ p.data, c.isDigit = true) (hp : p ≠ "") (hl : l ≠ "") :
    loadOne st ("lid-mapping-" ++ p ++ ".json", some l) = insertBoth st l p := by
  unfold loadOne
  rw [if_pos]
  · simp only [forward_name_parses p hdig]
    rw [if_pos]
    simp [hl, hp]
  · rw [forward_name_no_reverse p hdig, forward_name_starts p]
    rfl

/-- A directory holding exactly the forward-mapping files for the given
(phoneNumber, lid) pairs, in order. -/
def mkForwardDir (files : List (String × String)) : FSDir :=
  files.map (fun pl => ("lid-mapping-" ++ pl.1 ++ ".json", some pl.2))

theorem foldl_forward_phoneToLid_preserved (files : List (String × String))
    (st : CacheState) (k : String)
    (hwf : ∀ pl ∈ files, (∀ c ∈ pl.1.data, c.isDigit = true) ∧ pl.1 ≠ "" ∧ pl.2 ≠ "")
    (hk : ∀ pl ∈ files, pl.1 ≠ k) :
    mapGet ((mkForwardDir files).foldl loadOne st).phoneToLid k = mapGet st.phoneToLid k := by
  induction files generalizing st with
  | nil => rfl
  | cons q rest ih =>
    obtain ⟨hq₁, hq₂, hq₃⟩ := hwf q (List.mem_cons_self q rest)
    rw [show mkForwardDir (q :: rest)
        = ("lid-mapping-" ++ q.1 ++ ".json", some q.2) :: mkForwardDir rest from rfl]
    rw [List.foldl_cons, loadOne_forward st q.1 q.2 hq₁ hq₂ hq₃]
    rw [ih _ (fun pl h => hwf pl (List.mem_cons_of_mem q h))
          (fun pl h => hk pl (List.mem_cons_of_mem q h))]
    rw [insertBoth_phoneToLid, mapGet_mapSet_ne _ _ _ _ (hk q (List.mem_cons_self q rest))]

theorem foldl_forward_lidToPhone_preserved (files : List (String × String))
    (st : CacheState) (k : String)
    (hwf : ∀ pl ∈ files, (∀ c ∈ pl.1.data, c.isDigit = true) ∧ pl.1 ≠ "" ∧ pl.2 ≠ "")
    (hk : ∀ pl ∈ files, pl.2 ≠ k) :
    mapGet ((mkForwardDir files).foldl loadOne st).lidToPhone k = mapGet st.lidToPhone k := by
  induction files generalizing st with
  | nil => rfl
  | cons q rest ih =>
    obtain ⟨hq₁, hq₂, hq₃⟩ := hwf q (List.mem_cons_self q rest)
    rw [show mkForwardDir (q :: rest)
        = ("lid-mapping-" ++ q.1 ++ ".json", some q.2) :: mkForwardDir rest from rfl]
    rw [List.foldl_cons, loadOne_forward st q.1 q.2 hq₁ hq₂ hq₃]
    rw [ih _ (fun pl h => hwf pl (List.mem_cons_of_mem q h))
          (fun pl h => hk pl (List.mem_cons_of_mem q h))]
    rw [insertBoth_lidToPhone, mapGet_mapSet_ne _ _ _ _ (hk q (List.mem_cons_self q rest))]

theorem foldl_forward_roundtrip (files : List (String × String)) (st : CacheState)
    (hwf : ∀ pl ∈ files, (∀ c ∈ pl.1.data, c.isDigit = true) ∧ pl.1 ≠ "" ∧ pl.2 ≠ "")
    (hpn : (files.map Prod.fst).Nodup) (hln : (files.map Prod.snd).Nodup)
    (pl : String × String) (hmem : pl ∈ files) :
    mapGet ((mkForwardDir files).foldl loadOne st).phoneToLid pl.1 = some pl.2 ∧
    mapGet ((mkForwardDir files).foldl loadOne st).lidToPhone pl.2 = some pl.1 := by
  induction files generalizing st with
  | nil => cases hmem
  | cons q rest ih =>
    obtain ⟨hq₁, hq₂, hq₃⟩ := hwf q (List.mem_cons_self q rest)
    rw [show mkForwardDir (q :: rest)
        = ("lid-mapping-" ++ q.1 ++ ".json", some q.2) :: mkForwardDir rest from rfl]
    rw [List.foldl_cons, loadOne_forward st q.1 q.2 hq₁ hq₂ hq₃]
    have hwfr : ∀ pl ∈ rest, (∀ c ∈ pl.1.data, c.isDigit = true) ∧ pl.1 ≠ "" ∧ pl.2 ≠ "" :=
      fun pl h => hwf pl (List.mem_cons_of_mem q h)
    rcases List.mem_cons.mp hmem with heq | hmem₁
    · subst heq
      have hk₁ : ∀ r ∈ rest, r.1 ≠ pl.1 := by
        intro r hr he
        rw [List.map_cons, List.nodup_cons] at hpn
        exact hpn.1 (he ▸ List.mem_map_of_mem Prod.fst hr)
      have hk₂ : ∀ r ∈ rest, r.2 ≠ pl.2 := by
        intro r hr he
        rw [List.map_cons, List.nodup_cons] at hln
        exact hln.1 (he ▸ List.mem_map_of_mem Prod.snd hr)
      constructor
      · rw [foldl_forward_phoneToLid_preserved rest _ pl.1 hwfr hk₁]
        rw [insertBoth_phoneToLid, mapGet_mapSet_self]
      · rw [foldl_forward_lidToPhone_preserved rest _ pl.2 hwfr hk₂]
        rw [insertBoth_lidToPhone, mapGet_mapSet_self]
    · rw [List.map_cons, List.nodup_cons] at hpn hln
      exact ih _ hwfr hpn.2 hln.2 hmem₁

/-- C7: load a directory of well-formed forward-mapping files (digit-string
phone number embedded in the filename, a distinct nonempty LID as content,
pairwise-distinct phone numbers) from the fresh state; then every phone number
looks up to its LID in `phoneToLidCache` and every LID looks up to its phone
number in `lidToPhoneCache` — the round-trip holds in both directions. -/
theorem load_roundtrip (files : List (String × String))
    (hwf : ∀ pl ∈ files, (∀ c ∈ pl.1.data, c.isDigit = true) ∧ pl.1 ≠ "" ∧ pl.2 ≠ "")
    (hpn : (files.map Prod.fst).Nodup) (hln : (files.map Prod.snd).Nodup)
    (pl : String × String) (hmem : pl ∈ files) :
    mapGet (loadAllLidMappings (some (mkForwardDir files)) initialCache).1.phoneToLid pl.1
      = some pl.2 ∧
    mapGet (loadAllLidMappings (some (mkForwardDir files)) initialCache).1.lidToPhone pl.2
      = some pl.1 := by
  have h := foldl_forward_roundtrip files initialCache hwf hpn hln pl hmem
  unfold loadAllLidMappings
  rw [if_neg (by simp [initialCache])]
  constructor
  · show mapGet (watchMappingFiles (some (mkForwardDir files))
      { (mkForwardDir files).foldl loadOne initialCache with
        mappingsLoaded := true }).phoneToLid pl.1 = some pl.2
    rw [watchMappingFiles_phoneToLid]
    exact h.1
  · show mapGet (watchMappingFiles (some (mkForwardDir files))
      { (mkForwardDir files).foldl loadOne initialCache with
        mappingsLoaded := true }).lidToPhone pl.2 = some pl.1
    rw [watchMappingFiles_lidToPhone]
    exact h.2

/-- Witness for C7 on a concrete two-file directory. -/
theorem load_roundtrip_witness :
    mapGet (loadAllLidMappings (some (mkForwardDir
        [("628111", "111222333444555"), ("628222", "555444333222111")]))
      initialCache).1.phoneToLid "628222" = some "555444333222111" ∧
    mapGet (loadAllLidMappings (some (mkForwardDir
        [("628111", "111222333444555"), ("628222", "555444333222111")]))
      initialCache).1.lidToPhone "555444333222111" = some "628222" :=
  load_roundtrip [("628111", "111222333444555"), ("628222", "555444333222111")]
    (by decide) (by decide) (by decide) ("628222", "555444333222111") (by decide)

theorem jsEndsWith_append (a b : String) : jsEndsWith (a ++ b) b = true := by
  unfold jsEndsWith List.isSuffixOf
  rw [String.data_append, List.reverse_append]
  exact isPrefixOf_append_self _ _

theorem isPrefixOf_comparable : ∀ (l p q : List Char),
    p.isPrefixOf l = true → q.isPrefixOf l = true →
    p.isPrefixOf q = true ∨ q.isPrefixOf p = true := by
  intro l
  induction l with
  | nil =>
    intro p q hp hq
    cases p with
    | nil => left; simp [List.isPrefixOf]
    | cons c cs => simp [List.isPrefixOf] at hp
  | cons a l ih =>
    intro p q hp hq
    cases p with
    | nil => left; simp [List.isPrefixOf]
    | cons cp pt =>
      cases q with
      | nil => right; simp [List.isPrefixOf]
      | cons cq qt =>
        simp only [List.isPrefixOf, Bool.and_eq_true, beq_iff_eq] at hp hq
        obtain ⟨rfl, hp₂⟩ := hp
        obtain ⟨rfl, hq₂⟩ := hq
        rcases ih pt qt hp₂ hq₂ with h | h
        · left; simp [List.isPrefixOf, h]
        · right; simp [List.isPrefixOf, h]

theorem jsEndsWith_g_not_s (r : String) (h : jsEndsWith r "@g.us" = true) :
    jsEndsWith r "@s.whatsapp.net" = false := by
  unfold jsEndsWith List.isSuffixOf at h ⊢
  rw [Bool.eq_false_iff]
  intro h₂
  rcases isPrefixOf_comparable r.data.reverse _ _ h h₂ with hcmp | hcmp
  · revert hcmp; decide
  · revert hcmp; decide

theorem ne_empty_of_data_ne (r : String) (h : r.data ≠ []) : r ≠ "" := by
  intro he
  apply h
  rw [he]

theorem normalizeJid_result_suffix (j : String) (sock : Sock) (fs : FSys) (st : CacheState)
    (r : String) (h : (normalizeToWhatsAppJid (some j) sock fs st).1 = some r) :
    r ≠ "" ∧ (jsEndsWith r "@s.whatsapp.net" = true ∨ jsEndsWith r "@g.us" = true) := by
  simp only [normalizeToWhatsAppJid] at h
  by_cases h₀ : j = ""
  · rw [if_pos h₀] at h
    simp at h
  · rw [if_neg h₀] at h
    by_cases hs : jsEndsWith j "@s.whatsapp.net" = true
    · rw [if_pos hs] at h
      have hjr : j = r := by simpa using h
      subst hjr
      exact ⟨h₀, Or.inl hs⟩
    · rw [if_neg hs] at h
      by_cases hg : jsEndsWith j "@g.us" = true
      · rw [if_pos hg] at h
        have hjr : j = r := by simpa using h
        subst hjr
        exact ⟨h₀, Or.inr hg⟩
      · rw [if_neg hg] at h
        by_cases hl : jsIncludes j "@lid" = true
        · rw [if_pos hl] at h
          rcases Option.map_eq_some'.mp (by simpa using h) with ⟨pn, -, hr⟩
          subst hr
          refine ⟨ne_empty_of_data_ne _ ?_, Or.inl (jsEndsWith_append _ _)⟩
          rw [String.data_append]
          intro hnil
          exact absurd (List.append_eq_nil.mp hnil).2 (by decide)
        · rw [if_neg hl] at h
          rcases Option.map_eq_some'.mp (by simpa using h) with ⟨pn, -, hr⟩
          subst hr
          refine ⟨ne_empty_of_data_ne _ ?_, Or.inl (jsEndsWith_append _ _)⟩
          rw [String.data_append]
          intro hnil
          exact absurd (List.append_eq_nil.mp hnil).2 (by decide)

/-- C10: `normalizeToWhatsAppJid` is idempotent on its non-null results — every
non-null result already carries the direct suffix or the group suffix, and
normalizing it again (in any cache state) returns it unchanged. -/
theorem normalizeJid_idempotent (j r : String) (sock : Sock) (fs : FSys)
    (st st₁ : CacheState)
    (h : (normalizeToWhatsAppJid (some j) sock fs st).1 = some r) :
    (normalizeToWhatsAppJid (some r) sock fs st₁).1 = some r := by
  obtain ⟨hne, hsuf⟩ := normalizeJid_result_suffix j sock fs st r h
  rcases hsuf with hs | hg
  · simp only [normalizeToWhatsAppJid]
    rw [if_neg hne, if_pos hs]
  · simp only [normalizeToWhatsAppJid]
    rw [if_neg hne, if_neg (by simp [jsEndsWith_g_not_s r hg]), if_pos hg]

/-- Witness for C10: normalizing a heuristic-resolved LID JID gives a direct
JID, and normalizing that result again returns it unchanged. -/
theorem normalizeJid_idempotent_witness :
    (normalizeToWhatsAppJid (some "12345678901@s.whatsapp.net") none none initialCache).1
      = some "12345678901@s.whatsapp.net" :=
  normalizeJid_idempotent "12345678901@lid" "12345678901@s.whatsapp.net" none none
    initialCache initialCache (by decide)

/-- C1 counterexample: a raw message whose key block lacks `remoteJid` makes
`normalizeMessage` throw (the `msg.key.remoteJid.endsWith` access), so the
mapping is not total over all key-block shapes. -/
theorem normalizeMessage_throws_on_missing_remoteJid :
    normalizeMessage
      { key := { id := some "m1", remoteJid := none, fromMe := none, participant := none },
        messageTimestamp := some 5, message := none } none none initialCache 0
      = Except.error "TypeError: cannot read endsWith of undefined remoteJid" := rfl

/-- C1 (amended): `normalizeMessage` returns normally for every input whose key
block carries a remoteJid, whose poll block (if any) carries an options list,
whose contacts-array block (if any) carries a contacts list, and whose reaction
block (if any) carries a key; the four corresponding property accesses are the
only throwing sites. -/
theorem normalizeMessage_total (msg : RawMessage) (sock : Sock) (fs : FSys)
    (st : CacheState) (now : Nat)
    (hrj : msg.key.remoteJid.isSome = true)
    (hpoll : ∀ mc pm, msg.message = some mc → mc.pollCreationMessage = some pm →
      pm.options.isSome = true)
    (hcontacts : ∀ mc cam, msg.message = some mc → mc.contactsArrayMessage = some cam →
      cam.contacts.isSome = true)
    (hreact : ∀ mc rm, msg.message = some mc → mc.reactionMessage = some rm →
      rm.key.isSome = true) :
    exceptOk (normalizeMessage msg sock fs st now) = true := by
  obtain ⟨rj, hrj₁⟩ := Option.isSome_iff_exists.mp hrj
  cases hm : msg.message with
  | none => simp [normalizeMessage, hrj₁, hm, exceptOk]
  | some mc =>
    by_cases hconv : truthy mc.conversation = true
    · simp [normalizeMessage, hrj₁, hm, hconv, exceptOk]
    · cases hext : mc.extendedTextMessage with
      | some ext => simp [normalizeMessage, hrj₁, hm, hconv, hext, exceptOk]
      | none =>
        cases himg : mc.imageMessage with
        | some im => simp [normalizeMessage, hrj₁, hm, hconv, hext, himg, exceptOk]
        | none =>
          cases hvid : mc.videoMessage with
          | some vm => simp [normalizeMessage, hrj₁, hm, hconv, hext, himg, hvid, exceptOk]
          | none =>
            cases haud : mc.audioMessage with
            | some am =>
              simp [normalizeMessage, hrj₁, hm, hconv, hext, himg, hvid, haud, exceptOk]
            | none =>
              cases hdoc : mc.documentMessage with
              | some dm =>
                simp [normalizeMessage, hrj₁, hm, hconv, hext, himg, hvid, haud, hdoc,
                  exceptOk]
              | none =>
                cases hstk : mc.stickerMessage with
                | some sm =>
                  simp [normalizeMessage, hrj₁, hm, hconv, hext, himg, hvid, haud, hdoc,
                    hstk, exceptOk]
                | none =>
                  cases hloc : mc.locationMessage with
                  | some lm =>
                    simp [normalizeMessage, hrj₁, hm, hconv, hext, himg, hvid, haud, hdoc,
                      hstk, hloc, exceptOk]
                  | none =>
                    cases hcm : mc.contactMessage with
                    | some cm =>
                      simp [normalizeMessage, hrj₁, hm, hconv, hext, himg, hvid, haud,
                        hdoc, hstk, hloc, hcm, exceptOk]
                    | none =>
                      cases hcam : mc.contactsArrayMessage with
                      | some cam =>
                        cases hcs : cam.contacts with
                        | none =>
                          have h₁ := hcontacts mc cam hm hcam
                          rw [hcs] at h₁
                          simp at h₁
                        | some cs =>
                          simp [normalizeMessage, hrj₁, hm, hconv, hext, himg, hvid, haud,
                            hdoc, hstk, hloc, hcm, hcam, hcs, exceptOk]
                      | none =>
                        cases hpm : mc.pollCreationMessage with
                        | some pm =>
                          cases hopt : pm.options with
                          | none =>
                            have h₁ := hpoll mc pm hm hpm
                            rw [hopt] at h₁
                            simp at h₁
                          | some opts =>
                            simp [normalizeMessage, hrj₁, hm, hconv, hext, himg, hvid,
                              haud, hdoc, hstk, hloc, hcm, hcam, hpm, hopt, exceptOk]
                        | none =>
                          cases hrm : mc.reactionMessage with
                          | some rm =>
                            cases hk : rm.key with
                            | none =>
                              have h₁ := hreact mc rm hm hrm
                              rw [hk] at h₁
                              simp at h₁
                            | some k =>
                              simp [normalizeMessage, hrj₁, hm, hconv, hext, himg, hvid,
                                haud, hdoc, hstk, hloc, hcm, hcam, hpm, hrm, hk, exceptOk]
                          | none =>
                            simp [normalizeMessage, hrj₁, hm, hconv, hext, himg, hvid,
                              haud, hdoc, hstk, hloc, hcm, hcam, hpm, hrm, exceptOk]

/-- Witness for the amended C1 theorem: a poll message with an options list
normalizes without throwing. -/
theorem normalizeMessage_total_witness :
    exceptOk (normalizeMessage
      { key := { id := some "m1", remoteJid := some "628@s.whatsapp.net",
                 fromMe := none, participant := none },
        messageTimestamp := some 5,
        message := some { emptyMessageContent with
          pollCreationMessage := some
            { name := some "p",
              options := some [{ optionName := some "a" }],
              selectableOptionsCount := some 1 },
          objKeys := ["pollCreationMessage"] } } none none initialCache 0) = true :=
  normalizeMessage_total _ none none initialCache 0 (by decide)
    (fun mc pm hmc hpm => by
      cases hmc
      cases hpm
      decide)
    (fun mc cam hmc hcam => by
      cases hmc
      cases hcam)
    (fun mc rm hmc hrm => by
      cases hmc
      cases hrm)

/-- C3 counterexample: with `messageTimestamp` absent, `normalizeMessage` reads
the wall clock for the timestamp field, so two calls with the same message,
socket, directory and cache state made at different instants return different
records — the normalizer is not a pure function of those inputs alone. -/
theorem normalizeMessage_clock_dependent :
    (normalizeMessage
      { key := { id := some "m1", remoteJid := some "628@s.whatsapp.net",
                 fromMe := none, participant := none },
        messageTimestamp := none, message := none } none none initialCache 0).toOption
    ≠ (normalizeMessage
      { key := { id := some "m1", remoteJid := some "628@s.whatsapp.net",
                 fromMe := none, participant := none },
        messageTimestamp := none, message := none } none none initialCache 1).toOption := by
  decide

/-- C3 (amended): for every raw message whose `messageTimestamp` is present and
nonzero, `normalizeMessage` is deterministic — two calls with the same message,
socket, directory and cache state return identical results regardless of the
clock; only a message with an absent (or zero, hence falsy) timestamp reads the
clock. -/
theorem normalizeMessage_deterministic (msg : RawMessage) (sock : Sock) (fs : FSys)
    (st : CacheState) (now₁ now₂ t : Nat)
    (ht : msg.messageTimestamp = some t) (ht₀ : t ≠ 0) :
    normalizeMessage msg sock fs st now₁ = normalizeMessage msg sock fs st now₂ := by
  simp only [normalizeMessage, ht]
  simp [ht₀]

/-- Witness for the amended C3 theorem at a concrete text message. -/
theorem normalizeMessage_deterministic_witness :
    normalizeMessage
      { key := { id := some "m1", remoteJid := some "628@s.whatsapp.net",
                 fromMe := none, participant := none },
        messageTimestamp := some 5, message := none } none none initialCache 0
    = normalizeMessage
      { key := { id := some "m1", remoteJid := some "628@s.whatsapp.net",
                 fromMe := none, participant := none },
        messageTimestamp := some 5, message := none } none none initialCache 1 :=
  normalizeMessage_deterministic _ none none initialCache 0 1 5 rfl (by decide)

/-- C8: a raw message with no content block normalizes to messageType
"unknown" with every content field left at its default empty/null value; a raw
message whose content block is present but carries none of the recognized
content keys normalizes to messageType "unsupported" with the content field set
to the first key of the block. -/
theorem normalize_unknown_and_unsupported (msg : RawMessage) (sock : Sock) (fs : FSys)
    (st : CacheState) (now : Nat) (rj : String)
    (hrj : msg.key.remoteJid = some rj) :
    (msg.message = none →
      ∀ res st₁, normalizeMessage msg sock fs st now = Except.ok (res, st₁) →
        res.messageType = some "unknown" ∧ res.content = none ∧ res.caption = none ∧
        res.quotedMessage = none ∧ res.mentions = [] ∧ res.mentionLids = [] ∧
        res.hasMedia = false ∧ res.mediaUrl = none ∧ res.mimeType = none ∧
        res.fileName = none ∧ res.fileSize = none ∧ res.duration = none ∧
        res.location = none ∧ res.contacts = none ∧ res.pollData = none ∧
        res.reactionData = none) ∧
    (∀ mc, msg.message = some mc →
      mc.conversation = none → mc.extendedTextMessage = none → mc.imageMessage = none →
      mc.videoMessage = none → mc.audioMessage = none → mc.documentMessage = none →
      mc.stickerMessage = none → mc.locationMessage = none → mc.contactMessage = none →
      mc.contactsArrayMessage = none → mc.pollCreationMessage = none →
      mc.reactionMessage = none →
      ∀ k ks, mc.objKeys = k :: ks →
      ∀ res st₁, normalizeMessage msg sock fs st now = Except.ok (res, st₁) →
        res.messageType = some "unsupported" ∧ res.content = some k) := by
  constructor
  · intro hm res st₁ heq
    simp only [normalizeMessage, hrj, hm] at heq
    injection heq with h₁
    injection h₁ with h₂ h₃
    subst h₂
    exact ⟨rfl, rfl, rfl, rfl, rfl, rfl, rfl, rfl, rfl, rfl, rfl, rfl, rfl, rfl, rfl, rfl⟩
  · intro mc hm h₁ h₂ h₃ h₄ h₅ h₆ h₇ h₈ h₉ h₁₀ h₁₁ h₁₂ k ks hk res st₁ heq
    simp only [normalizeMessage, hrj, hm, h₁, h₂, h₃, h₄, h₅, h₆, h₇, h₈, h₉, h₁₀, h₁₁,
      h₁₂, hk, truthy, bne_self_eq_false, Bool.false_eq_true, if_false,
      List.head?] at heq
    injection heq with hh₁
    injection hh₁ with hh₂ hh₃
    subst hh₂
    exact ⟨rfl, rfl⟩

/-- Witness for C8: a content block holding only the unrecognized key
"fooMessage" normalizes to the unsupported type naming that key. -/
theorem normalize_unknown_and_unsupported_witness :
    ({ messageId := some "m1", timestamp := 5000, «from» := some "628", fromLid := none,
       fromJid := some "628@s.whatsapp.net", fromJidRaw := some "628@s.whatsapp.net",
       fromMe := false, participant := none, participantLid := none,
       participantJid := none, participantJidRaw := none, isGroup := false,
       messageType := some "unsupported", content := some "fooMessage", caption := none,
       quotedMessage := none, mentions := [], mentionLids := [], hasMedia := false,
       mediaUrl := none, mimeType := none, fileName := none, fileSize := none,
       duration := none, location := none, contacts := none, pollData := none,
       reactionData := none,
       rawMessage := { emptyMessageContent with objKeys := ["fooMessage"] } }
      : NormalizedMessage).messageType = some "unsupported" ∧
    ({ messageId := some "m1", timestamp := 5000, «from» := some "628", fromLid := none,
       fromJid := some "628@s.whatsapp.net", fromJidRaw := some "628@s.whatsapp.net",
       fromMe := false, participant := none, participantLid := none,
       participantJid := none, participantJidRaw := none, isGroup := false,
       messageType := some "unsupported", content := some "fooMessage", caption := none,
       quotedMessage := none, mentions := [], mentionLids := [], hasMedia := false,
       mediaUrl := none, mimeType := none, fileName := none, fileSize := none,
       duration := none, location := none, contacts := none, pollData := none,
       reactionData := none,
       rawMessage := { emptyMessageContent with objKeys := ["fooMessage"] } }
      : NormalizedMessage).content = some "fooMessage" :=
  (normalize_unknown_and_unsupported
    { key := { id := some "m1", remoteJid := some "628@s.whatsapp.net",
               fromMe := none, participant := none },
      messageTimestamp := some 5,
      message := some { emptyMessageContent with objKeys := ["fooMessage"] } }
    none none initialCache 0 "628@s.whatsapp.net" rfl).2
    { emptyMessageContent with objKeys := ["fooMessage"] } rfl rfl rfl rfl rfl rfl rfl
    rfl rfl rfl rfl rfl rfl "fooMessage" [] rfl _ initialCache rfl

/-- C9: normalizing a message whose remoteJid ends in the group suffix and
whose key block carries a nonempty participant sets `isGroup = true` and fills
the participant phone-number field by running full identifier resolution on the
participant identifier (not on the group pseudo-identifier). -/
theorem normalize_group_participant (msg : RawMessage) (sock : Sock) (fs : FSys)
    (st : CacheState) (now : Nat) (rj pj : String)
    (hrj : msg.key.remoteJid = some rj)
    (hg : jsEndsWith rj "@g.us" = true)
    (hnl : jsIncludes rj "@lid" = false)
    (hp : msg.key.participant = some pj) (hpne : pj ≠ "")
    (res : NormalizedMessage) (st₁ : CacheState)
    (heq : normalizeMessage msg sock fs st now = Except.ok (res, st₁)) :
    res.isGroup = true ∧ res.participant = (extractPhoneNumber (some pj) sock fs st).1 := by
  have hrne : rj ≠ "" := by
    intro he
    subst he
    rw [show jsEndsWith "" "@g.us" = false from by decide] at hg
    exact Bool.false_ne_true hg
  have hsw : jsEndsWith rj "@s.whatsapp.net" = false := jsEndsWith_g_not_s rj hg
  have h₁ : extractPhoneNumber (some rj) sock fs st
      = (some (jsSplitHead (jsSplitHead rj '@') '-'), st) := by
    simp [extractPhoneNumber, hrne, hnl, hsw, hg]
  have h₂ : normalizeToWhatsAppJid (some rj) sock fs st = (some rj, st) := by
    simp [normalizeToWhatsAppJid, hrne, hsw, hg]
  have htp : truthy (some pj) = true := by simp [truthy, hpne]
  simp only [normalizeMessage, hrj, hp, htp, if_true, h₁] at heq
  simp only [h₂] at heq
  repeat' split at heq
  all_goals (first | (injection heq with hh₁; injection hh₁ with hh₂ hh₃; subst hh₂; refine ⟨by simp [hg], rfl⟩) | injection heq)

/-- Witness for C9 on a concrete group message: the participant field holds the
resolution of the participant identifier, and the group flag is set. -/
theorem normalize_group_participant_witness :
    ({ messageId := some "g1", timestamp := 7000, «from» := some "123", fromLid := none,
       fromJid := some "123-456@g.us", fromJidRaw := some "123-456@g.us",
       fromMe := false, participant := some "628555", participantLid := none,
       participantJid := some "628555@s.whatsapp.net",
       participantJidRaw := some "628555@s.whatsapp.net", isGroup := true,
       messageType := some "unknown", content := none, caption := none,
       quotedMessage := none, mentions := [], mentionLids := [], hasMedia := false,
       mediaUrl := none, mimeType := none, fileName := none, fileSize := none,
       duration := none, location := none, contacts := none, pollData := none,
       reactionData := none, rawMessage := emptyMessageContent }
      : NormalizedMessage).isGroup = true ∧
    ({ messageId := some "g1", timestamp := 7000, «from» := some "123", fromLid := none,
       fromJid := some "123-456@g.us", fromJidRaw := some "123-456@g.us",
       fromMe := false, participant := some "628555", participantLid := none,
       participantJid := some "628555@s.whatsapp.net",
       participantJidRaw := some "628555@s.whatsapp.net", isGroup := true,
       messageType := some "unknown", content := none, caption := none,
       quotedMessage := none, mentions := [], mentionLids := [], hasMedia := false,
       mediaUrl := none, mimeType := none, fileName := none, fileSize := none,
       duration := none, location := none, contacts := none, pollData := none,
       reactionData := none, rawMessage := emptyMessageContent }
      : NormalizedMessage).participant =
      (extractPhoneNumber (some "628555@s.whatsapp.net") none none initialCache).1 :=
  normalize_group_participant
    { key := { id := some "g1", remoteJid := some "123-456@g.us",
               fromMe := none, participant := some "628555@s.whatsapp.net" },
      messageTimestamp := some 7, message := none }
    none none initialCache 0 "123-456@g.us" "628555@s.whatsapp.net"
    rfl (by decide) (by decide) rfl (by decide) _ initialCache rfl
